import Mathlib

/-!
# Verification of the automated mine-ventilation door controller

Shallow embedding of `src/automated_ventilation_door_v2/automated_ventilation_door_v2.ino`.

The sketch's `loop()` is a non-blocking polling cycle over a four-state door
state machine.  We model one cycle as a pure function `evaluate` from the
persistent controller state (the three globals `currentDoorState`,
`stateChangeTimestamp`, `lastMotionDetectedTimestamp`), a sensor snapshot and
the cycle's `millis()` value to the next controller state and the actuator
commands written at the end of the cycle.  `millis()` returns `unsigned long`
(32-bit on AVR), so elapsed-time expressions such as
`millis() - stateChangeTimestamp` are modelled as subtraction modulo 2^32.
-/

namespace VentDoor

/-- `enum DoorState { CLOSED, OPENING, OPEN, CLOSING };` (lines 51-56). -/
inductive DoorState where
  | Closed
  | Opening
  | Open
  | Closing
deriving DecidableEq, Repr

/-- The per-cycle sensor snapshot assembled at the top of `loop()`
(lines 94-107): the OR of the two IR obstacle inputs, and the count of
active radar (motion) sensors. -/
structure SensorSnapshot where
  obstacle_present : Bool
  active_motion_sensors : Nat
deriving DecidableEq, Repr

/-- The controller's persistent state: the globals `currentDoorState`,
`stateChangeTimestamp` and `lastMotionDetectedTimestamp` (lines 58-63).
Timestamps are `millis()` values, held as naturals (the embedding applies
the 32-bit wraparound where the code subtracts them). -/
structure ControllerState where
  current_state : DoorState
  state_entered_at : Nat
  last_motion_at : Nat
deriving DecidableEq, Repr

/-- Configuration constants (lines 44-46): `DOOR_TRAVEL_TIME_MS`,
`DOOR_OPEN_DURATION_MS`, `MOTION_SENSITIVITY_THRESHOLD`. -/
structure Config where
  door_travel_time : Nat
  door_open_dwell_time : Nat
  motion_sensitivity_threshold : Nat
deriving DecidableEq, Repr

/-- The constants compiled into the sketch:
`DOOR_TRAVEL_TIME_MS = 15000`, `DOOR_OPEN_DURATION_MS = 10000`,
`MOTION_SENSITIVITY_THRESHOLD = 1`. -/
def codeConfig : Config :=
  { door_travel_time := 15000
    door_open_dwell_time := 10000
    motion_sensitivity_threshold := 1 }

/-- The actuator commands written in sections 2 and 4 of `loop()`:
door-motor relay (line 179-183), status-light relay (line 186-190),
buzzer (lines 123-125). -/
structure ActuatorCommand where
  motor_engaged : Bool
  status_light_safe : Bool
  buzzer_active : Bool
deriving DecidableEq, Repr

/-- `unsigned long` arithmetic: `now - t` computed modulo 2^32, as in
`millis() - stateChangeTimestamp` (lines 145, 154, 167).  Faithful to the C
unsigned subtraction whenever `t < 2^32`. -/
def elapsed (now t : Nat) : Nat :=
  (now + 4294967296 - t) % 4294967296

/-- `bool motionDetected = (activeRadarSensors >= MOTION_SENSITIVITY_THRESHOLD);`
(line 107). -/
def motionDetected (cfg : Config) (snap : SensorSnapshot) : Bool :=
  decide (cfg.motion_sensitivity_threshold ≤ snap.active_motion_sensors)

/-- Section 1 of `loop()` (lines 110-112): if motion is detected this cycle,
record the timestamp. -/
def updateMotion (cfg : Config) (snap : SensorSnapshot) (now : Nat)
    (s : ControllerState) : ControllerState :=
  if motionDetected cfg snap then { s with last_motion_at := now } else s

/-- Section 2 of `loop()` (lines 116-122), the safety override: while an
obstacle is detected and the door is neither `OPENING` nor `OPEN`, force the
state to `OPENING` and restart the state timer.  (The buzzer write of
lines 123-125 is reflected in the `buzzer_active` output field.) -/
def applyOverride (snap : SensorSnapshot) (now : Nat)
    (s : ControllerState) : ControllerState :=
  if snap.obstacle_present then
    if s.current_state ≠ DoorState.Opening ∧ s.current_state ≠ DoorState.Open then
      { s with current_state := DoorState.Opening, state_entered_at := now }
    else s
  else s

/-- Section 3 of `loop()` (lines 132-172), the ordinary state machine switch,
run on the (possibly just-overridden) state. -/
def stepMachine (cfg : Config) (snap : SensorSnapshot) (now : Nat)
    (s : ControllerState) : ControllerState :=
  match s.current_state with
  | DoorState.Closed =>
      if motionDetected cfg snap then
        { s with current_state := DoorState.Opening, state_entered_at := now }
      else s
  | DoorState.Opening =>
      if cfg.door_travel_time ≤ elapsed now s.state_entered_at then
        { s with current_state := DoorState.Open }
      else s
  | DoorState.Open =>
      if cfg.door_open_dwell_time ≤ elapsed now s.last_motion_at then
        if ¬ snap.obstacle_present then
          { s with current_state := DoorState.Closing, state_entered_at := now }
        else s
      else s
  | DoorState.Closing =>
      if cfg.door_travel_time ≤ elapsed now s.state_entered_at then
        { s with current_state := DoorState.Closed }
      else s

/-- Section 4 of `loop()` (lines 179-190) together with the buzzer writes of
lines 123-125: the actuator commands as they stand at the end of the cycle,
as a function of the final state and the cycle's obstacle reading. -/
def outputs (snap : SensorSnapshot) (s : ControllerState) : ActuatorCommand :=
  { motor_engaged :=
      decide (s.current_state = DoorState.Opening ∨ s.current_state = DoorState.Open)
    status_light_safe := decide (s.current_state = DoorState.Open)
    buzzer_active := snap.obstacle_present }

/-- One full polling cycle of `loop()` (lines 93-191): motion-timestamp
update, safety override, state-machine step, output derivation. -/
def evaluate (cfg : Config) (s : ControllerState) (snap : SensorSnapshot)
    (now : Nat) : ControllerState × ActuatorCommand :=
  let s1 := updateMotion cfg snap now s
  let s2 := applyOverride snap now s1
  let s3 := stepMachine cfg snap now s2
  (s3, outputs snap s3)

/-- The state part of one cycle. -/
def evalState (cfg : Config) (snap : SensorSnapshot) (now : Nat)
    (s : ControllerState) : ControllerState :=
  (evaluate cfg s snap now).1

/-- The globals' initializers (lines 58-63): `currentDoorState = CLOSED`,
`stateChangeTimestamp = 0`, `lastMotionDetectedTimestamp = 0`. -/
def initialControllerState : ControllerState :=
  { current_state := DoorState.Closed
    state_entered_at := 0
    last_motion_at := 0 }

/-- `millis()` counts milliseconds since the program began running, so the
clock reads 0 at process start. -/
def processStartMillis : Nat := 0

end VentDoor

namespace VentDoor

/-! ## Basic lemmas about the embedding -/

theorem elapsed_self (now : Nat) : elapsed now now = 0 := by
  unfold elapsed; omega

theorem elapsed_eq_sub (now t : Nat) (h1 : t ≤ now) (h2 : now - t < 4294967296) :
    elapsed now t = now - t := by
  unfold elapsed; omega

theorem applyOverride_last (snap : SensorSnapshot) (now : Nat) (s : ControllerState) :
    (applyOverride snap now s).last_motion_at = s.last_motion_at := by
  unfold applyOverride; split_ifs <;> rfl

theorem stepMachine_last (cfg : Config) (snap : SensorSnapshot) (now : Nat)
    (s : ControllerState) :
    (stepMachine cfg snap now s).last_motion_at = s.last_motion_at := by
  rcases s with ⟨c, ts, lm⟩
  cases c <;> simp only [stepMachine] <;> split_ifs <;> rfl

theorem updateMotion_settled (cfg : Config) (snap : SensorSnapshot) (now : Nat)
    (s : ControllerState) (h : motionDetected cfg snap = true → s.last_motion_at = now) :
    updateMotion cfg snap now s = s := by
  rcases s with ⟨c, ts, lm⟩
  unfold updateMotion
  split_ifs with hm
  · simp_all
  · rfl

/-- After any cycle, a detected motion has set `last_motion_at` to the
cycle's `now`. -/
theorem evalState_last_settled (cfg : Config) (snap : SensorSnapshot) (now : Nat)
    (s : ControllerState) (hm : motionDetected cfg snap = true) :
    (evalState cfg snap now s).last_motion_at = now := by
  unfold evalState evaluate
  simp only [stepMachine_last, applyOverride_last]
  unfold updateMotion
  simp [hm]

/-! ## Claim theorems -/

/-- C1: in any cycle whose snapshot reports an obstacle while the state is
`Closed` or `Closing`, the safety override (run before the ordinary state
machine) forces the state to `Opening` and sets `state_entered_at` to the
cycle's `now`, regardless of motion or elapsed time. -/
theorem spec_C1_override (cfg : Config) (s : ControllerState) (snap : SensorSnapshot)
    (now : Nat)
    (hst : s.current_state = DoorState.Closed ∨ s.current_state = DoorState.Closing)
    (hobs : snap.obstacle_present = true)
    (htravel : 0 < cfg.door_travel_time) :
    (evaluate cfg s snap now).1.current_state = DoorState.Opening ∧
    (evaluate cfg s snap now).1.state_entered_at = now := by
  rcases s with ⟨c, ts, lm⟩
  rcases hst with h | h <;> subst h <;>
    by_cases hm : motionDetected cfg snap <;>
      simp_all [evaluate, updateMotion, applyOverride, stepMachine, elapsed_self] <;>
        split_ifs <;> simp_all

theorem spec_C1_override_witness :
    (evaluate codeConfig ⟨DoorState.Closed, 0, 0⟩ ⟨true, 0⟩ 42).1.current_state
        = DoorState.Opening ∧
    (evaluate codeConfig ⟨DoorState.Closed, 0, 0⟩ ⟨true, 0⟩ 42).1.state_entered_at = 42 :=
  spec_C1_override codeConfig ⟨DoorState.Closed, 0, 0⟩ ⟨true, 0⟩ 42
    (Or.inl rfl) rfl (by decide)

/-- C4: starting a cycle in `Opening` with no obstacle, the cycle ends in
`Open` exactly when `now - state_entered_at` has reached the door travel
time, and otherwise the cycle ends still in `Opening`. -/
theorem spec_C4_travel (cfg : Config) (s : ControllerState) (snap : SensorSnapshot)
    (now : Nat)
    (hst : s.current_state = DoorState.Opening)
    (hobs : snap.obstacle_present = false)
    (h1 : s.state_entered_at ≤ now)
    (h2 : now - s.state_entered_at < 4294967296) :
    ((evaluate cfg s snap now).1.current_state = DoorState.Open ↔
      cfg.door_travel_time ≤ now - s.state_entered_at) ∧
    (now - s.state_entered_at < cfg.door_travel_time →
      (evaluate cfg s snap now).1.current_state = DoorState.Opening) := by
  rcases s with ⟨c, ts, lm⟩
  subst hst
  simp only at h1 h2
  have he : elapsed now ts = now - ts := elapsed_eq_sub now ts h1 h2
  by_cases hm : motionDetected cfg snap <;>
    by_cases ht : cfg.door_travel_time ≤ now - ts <;>
      simp_all [evaluate, updateMotion, applyOverride, stepMachine] <;>
        split_ifs <;> simp_all <;> omega

theorem spec_C4_travel_witness :
    ((evaluate codeConfig ⟨DoorState.Opening, 0, 0⟩ ⟨false, 0⟩ 15000).1.current_state
        = DoorState.Open ↔ 15000 ≤ 15000 - 0) ∧
    (15000 - 0 < 15000 →
      (evaluate codeConfig ⟨DoorState.Opening, 0, 0⟩ ⟨false, 0⟩ 15000).1.current_state
        = DoorState.Opening) :=
  spec_C4_travel codeConfig ⟨DoorState.Opening, 0, 0⟩ ⟨false, 0⟩ 15000
    rfl rfl (by decide) (by decide)

/-- C5: at the end of every cycle the motor is engaged iff the final state is
`Opening` or `Open`, the status light shows safe iff the final state is
`Open`, and the buzzer is active iff the snapshot reported an obstacle. -/
theorem spec_C5_outputs (cfg : Config) (s : ControllerState) (snap : SensorSnapshot)
    (now : Nat) :
    ((evaluate cfg s snap now).2.motor_engaged = true ↔
      ((evaluate cfg s snap now).1.current_state = DoorState.Opening ∨
       (evaluate cfg s snap now).1.current_state = DoorState.Open)) ∧
    ((evaluate cfg s snap now).2.status_light_safe = true ↔
      (evaluate cfg s snap now).1.current_state = DoorState.Open) ∧
    (evaluate cfg s snap now).2.buzzer_active = snap.obstacle_present := by
  simp [evaluate, outputs]

/-- C7: one cycle is a total function; the state it produces is always one of
the four declared values of `DoorState`. -/
theorem spec_C7_total (cfg : Config) (s : ControllerState) (snap : SensorSnapshot)
    (now : Nat) :
    (evaluate cfg s snap now).1.current_state = DoorState.Closed ∨
    (evaluate cfg s snap now).1.current_state = DoorState.Opening ∨
    (evaluate cfg s snap now).1.current_state = DoorState.Open ∨
    (evaluate cfg s snap now).1.current_state = DoorState.Closing := by
  cases h : (evaluate cfg s snap now).1.current_state <;> simp

/-- C8: at process start the controller is `Closed`, `state_entered_at`
equals the start-of-process clock reading (0, since `millis()` counts from
program start), and `last_motion_at` is 0. -/
theorem spec_C8_initial :
    initialControllerState.current_state = DoorState.Closed ∧
    initialControllerState.state_entered_at = processStartMillis ∧
    initialControllerState.last_motion_at = 0 :=
  ⟨rfl, rfl, rfl⟩

/-- Helper for several claims: while the snapshot reports an obstacle, the
cycle can only end in `Opening` or `Open` — the override forces `Closed` and
`Closing` to `Opening`, and in `Open` the obstacle guard withholds the
transition to `Closing`. -/
theorem obstacle_cycle_open (cfg : Config) (snap : SensorSnapshot) (now : Nat)
    (s : ControllerState) (hobs : snap.obstacle_present = true) :
    (evalState cfg snap now s).current_state = DoorState.Opening ∨
    (evalState cfg snap now s).current_state = DoorState.Open := by
  rcases s with ⟨c, ts, lm⟩
  cases c <;> by_cases hm : motionDetected cfg snap <;>
    simp_all [evalState, evaluate, updateMotion, applyOverride, stepMachine] <;>
      split_ifs <;> simp_all

/-- C9: in every cycle whose snapshot reports an obstacle, the final state is
`Opening` or `Open`, and therefore the motor is commanded on — the motor is
never commanded off while an obstacle is present, from any state. -/
theorem spec_C9_obstacle_motor (cfg : Config) (s : ControllerState)
    (snap : SensorSnapshot) (now : Nat) (hobs : snap.obstacle_present = true) :
    ((evaluate cfg s snap now).1.current_state = DoorState.Opening ∨
     (evaluate cfg s snap now).1.current_state = DoorState.Open) ∧
    (evaluate cfg s snap now).2.motor_engaged = true := by
  have h := obstacle_cycle_open cfg snap now s hobs
  unfold evalState at h
  refine ⟨h, ?_⟩
  simpa [evaluate, outputs] using h

theorem spec_C9_obstacle_motor_witness :
    (((evaluate codeConfig ⟨DoorState.Closing, 100, 0⟩ ⟨true, 0⟩ 5000).1.current_state
        = DoorState.Opening ∨
      (evaluate codeConfig ⟨DoorState.Closing, 100, 0⟩ ⟨true, 0⟩ 5000).1.current_state
        = DoorState.Open) ∧
     (evaluate codeConfig ⟨DoorState.Closing, 100, 0⟩ ⟨true, 0⟩ 5000).2.motor_engaged
        = true) :=
  spec_C9_obstacle_motor codeConfig ⟨DoorState.Closing, 100, 0⟩ ⟨true, 0⟩ 5000 rfl

/-- C10: while the state is `Opening`, the cycle leaves `state_entered_at`
untouched whatever the sensors report, and the resulting state (`Open` once
the travel time has elapsed, else still `Opening`) is the same for any two
snapshots — it depends only on the clock and the travel time. -/
theorem spec_C10_opening_frame (cfg : Config) (s : ControllerState)
    (snap snap' : SensorSnapshot) (now : Nat)
    (hst : s.current_state = DoorState.Opening) :
    (evaluate cfg s snap now).1.state_entered_at = s.state_entered_at ∧
    (evaluate cfg s snap now).1.current_state = (evaluate cfg s snap' now).1.current_state ∧
    ((evaluate cfg s snap now).1.current_state = DoorState.Open ↔
      cfg.door_travel_time ≤ elapsed now s.state_entered_at) := by
  rcases s with ⟨c, ts, lm⟩
  subst hst
  by_cases hm : motionDetected cfg snap <;>
    by_cases hm' : motionDetected cfg snap' <;>
      by_cases ht : cfg.door_travel_time ≤ elapsed now ts <;>
        simp_all [evaluate, updateMotion, applyOverride, stepMachine] <;>
          split_ifs <;> simp_all

theorem spec_C10_opening_frame_witness :
    (evaluate codeConfig ⟨DoorState.Opening, 300, 0⟩ ⟨true, 5⟩ 400).1.state_entered_at
        = 300 ∧
    (evaluate codeConfig ⟨DoorState.Opening, 300, 0⟩ ⟨true, 5⟩ 400).1.current_state
        = (evaluate codeConfig ⟨DoorState.Opening, 300, 0⟩ ⟨false, 0⟩ 400).1.current_state ∧
    ((evaluate codeConfig ⟨DoorState.Opening, 300, 0⟩ ⟨true, 5⟩ 400).1.current_state
        = DoorState.Open ↔ 15000 ≤ elapsed 400 300) :=
  spec_C10_opening_frame codeConfig ⟨DoorState.Opening, 300, 0⟩ ⟨true, 5⟩ ⟨false, 0⟩ 400 rfl

/-- Helper for C2: in `Open`, a cycle whose snapshot reports an obstacle and
no motion leaves the whole controller state unchanged — the obstacle guard
withholds the transition to `Closing` and nothing touches the timestamps. -/
theorem open_obstacle_frozen (cfg : Config) (snap : SensorSnapshot) (now : Nat)
    (s : ControllerState) (hst : s.current_state = DoorState.Open)
    (hobs : snap.obstacle_present = true)
    (hm : snap.active_motion_sensors < cfg.motion_sensitivity_threshold) :
    evalState cfg snap now s = s := by
  rcases s with ⟨c, ts, lm⟩
  subst hst
  have hmd : motionDetected cfg snap = false := by
    simp [motionDetected]; omega
  simp [evalState, evaluate, updateMotion, applyOverride, stepMachine, hmd, hobs]

/-- C2: with the door `Open`, (i) a cycle whose snapshot reports an obstacle
and no motion, even one where the dwell time has expired, leaves the
controller state unchanged — the transition to `Closing` is withheld and
`last_motion_at` is not modified; (ii) the state stays `Open` with both
timestamps untouched over arbitrarily many such cycles; (iii) at a cycle
where the obstacle has cleared, no motion is seen and the dwell comparison
still holds, the state moves to `Closing`. -/
theorem spec_C2_dwell_withholding (cfg : Config) (s : ControllerState)
    (hst : s.current_state = DoorState.Open) :
    (∀ snap now, snap.obstacle_present = true →
      snap.active_motion_sensors < cfg.motion_sensitivity_threshold →
      cfg.door_open_dwell_time ≤ elapsed now s.last_motion_at →
      evalState cfg snap now s = s) ∧
    (∀ cycles : List (SensorSnapshot × Nat),
      (∀ c ∈ cycles, c.1.obstacle_present = true ∧
        c.1.active_motion_sensors < cfg.motion_sensitivity_threshold) →
      cycles.foldl (fun st c => evalState cfg c.1 c.2 st) s = s) ∧
    (∀ snap now, snap.obstacle_present = false →
      snap.active_motion_sensors < cfg.motion_sensitivity_threshold →
      cfg.door_open_dwell_time ≤ elapsed now s.last_motion_at →
      (evalState cfg snap now s).current_state = DoorState.Closing) := by
  refine ⟨?_, ?_, ?_⟩
  · intro snap now hobs hm _
    exact open_obstacle_frozen cfg snap now s hst hobs hm
  · intro cycles hcy
    induction cycles with
    | nil => rfl
    | cons c rest ih =>
        have hc := hcy c (List.mem_cons_self c rest)
        simp only [List.foldl_cons,
          open_obstacle_frozen cfg c.1 c.2 s hst hc.1 hc.2]
        exact ih (fun d hd => hcy d (List.mem_cons_of_mem c hd))
  · intro snap now hobs hm hd
    rcases s with ⟨c, ts, lm⟩
    subst hst
    have hmd : motionDetected cfg snap = false := by
      simp [motionDetected]; omega
    simp only at hd
    simp [evalState, evaluate, updateMotion, applyOverride, stepMachine, hmd, hobs, hd]

theorem spec_C2_dwell_withholding_witness :
    evalState codeConfig ⟨true, 0⟩ 30000 ⟨DoorState.Open, 15000, 20000⟩
        = ⟨DoorState.Open, 15000, 20000⟩ ∧
    List.foldl (fun st c => evalState codeConfig c.1 c.2 st)
        (⟨DoorState.Open, 15000, 20000⟩ : ControllerState)
        [(⟨true, 0⟩, 30000), (⟨true, 0⟩, 31000), (⟨true, 0⟩, 45000)]
        = ⟨DoorState.Open, 15000, 20000⟩ ∧
    (evalState codeConfig ⟨false, 0⟩ 46000 ⟨DoorState.Open, 15000, 20000⟩).current_state
        = DoorState.Closing := by
  refine ⟨?_, ?_, ?_⟩
  · exact (spec_C2_dwell_withholding codeConfig ⟨DoorState.Open, 15000, 20000⟩ rfl).1
      ⟨true, 0⟩ 30000 rfl (by decide) (by decide)
  · exact (spec_C2_dwell_withholding codeConfig ⟨DoorState.Open, 15000, 20000⟩ rfl).2.1
      [(⟨true, 0⟩, 30000), (⟨true, 0⟩, 31000), (⟨true, 0⟩, 45000)] (by decide)
  · exact (spec_C2_dwell_withholding codeConfig ⟨DoorState.Open, 15000, 20000⟩ rfl).2.2
      ⟨false, 0⟩ 46000 rfl (by decide) (by decide)

/-- C3 as stated is false on the code: in Scenario C's cycle (`Open` since
15000, `last_motion_at = 20000`, dwell 10000, obstacle at `now = 30000`) the
safety override does not apply — its guard excludes the `Open` state — and
the cycle leaves the state `Open`, not `Opening`. -/
theorem spec_C3_counterexample :
    ¬ (evaluate codeConfig ⟨DoorState.Open, 15000, 20000⟩ ⟨true, 0⟩ 30000).1.current_state
        = DoorState.Opening := by decide

/-- C3 (amended): in Scenario C's cycle the obstacle withholds the
dwell-expired transition to `Closing`, so the state remains `Open`
(the override's guard excludes `Open`); the buzzer is active and the motor is
still engaged at the end of the cycle. -/
theorem spec_C3_scenario :
    (evaluate codeConfig ⟨DoorState.Open, 15000, 20000⟩ ⟨true, 0⟩ 30000).1.current_state
        = DoorState.Open ∧
    (evaluate codeConfig ⟨DoorState.Open, 15000, 20000⟩ ⟨true, 0⟩ 30000).2.buzzer_active
        = true ∧
    (evaluate codeConfig ⟨DoorState.Open, 15000, 20000⟩ ⟨true, 0⟩ 30000).2.motor_engaged
        = true := by decide

/-! ## Stabilization of repeated cycles at a constant clock (for C6) -/

/-- A cycle that ends in `Opening` has not yet exhausted the travel time
(either the state was just entered, so the elapsed time is 0, or the
`Opening` branch's guard failed). -/
theorem opening_inv (cfg : Config) (snap : SensorSnapshot) (now : Nat)
    (htravel : 0 < cfg.door_travel_time) (s : ControllerState)
    (h : (evalState cfg snap now s).current_state = DoorState.Opening) :
    elapsed now (evalState cfg snap now s).state_entered_at < cfg.door_travel_time := by
  rcases s with ⟨c, ts, lm⟩
  have h0 := elapsed_self now
  cases c <;> by_cases hm : motionDetected cfg snap <;>
    by_cases ho : snap.obstacle_present <;>
      simp_all [evalState, evaluate, updateMotion, applyOverride, stepMachine] <;>
        split_ifs at * <;> simp_all <;> omega

/-- A cycle that ends in `Closing` has not yet exhausted the travel time. -/
theorem closing_inv (cfg : Config) (snap : SensorSnapshot) (now : Nat)
    (htravel : 0 < cfg.door_travel_time) (s : ControllerState)
    (h : (evalState cfg snap now s).current_state = DoorState.Closing) :
    elapsed now (evalState cfg snap now s).state_entered_at < cfg.door_travel_time := by
  rcases s with ⟨c, ts, lm⟩
  have h0 := elapsed_self now
  cases c <;> by_cases hm : motionDetected cfg snap <;>
    by_cases ho : snap.obstacle_present <;>
      simp_all [evalState, evaluate, updateMotion, applyOverride, stepMachine] <;>
        split_ifs at * <;> simp_all <;> omega

/-- If the previous cycle could not have been about to finish closing, a
cycle ending in `Closed` saw no motion (motion would have moved the door to
`Opening`). -/
theorem closed_after_step (cfg : Config) (snap : SensorSnapshot) (now : Nat)
    (s : ControllerState)
    (hD : s.current_state = DoorState.Closing →
      elapsed now s.state_entered_at < cfg.door_travel_time)
    (h : (evalState cfg snap now s).current_state = DoorState.Closed) :
    motionDetected cfg snap = false := by
  rcases s with ⟨c, ts, lm⟩
  cases c <;> by_cases hm : motionDetected cfg snap <;>
    by_cases ho : snap.obstacle_present <;>
      simp_all [evalState, evaluate, updateMotion, applyOverride, stepMachine] <;>
        split_ifs at * <;> simp_all <;> omega

/-- If the previous cycle could not have been about to finish opening, a
cycle ending in `Open` ends with its dwell condition inactive: an obstacle is
present or the dwell time has not expired against the cycle's own
`last_motion_at`. -/
theorem open_after_step (cfg : Config) (snap : SensorSnapshot) (now : Nat)
    (s : ControllerState)
    (hC : s.current_state = DoorState.Opening →
      elapsed now s.state_entered_at < cfg.door_travel_time)
    (h : (evalState cfg snap now s).current_state = DoorState.Open) :
    snap.obstacle_present = true ∨
    elapsed now (evalState cfg snap now s).last_motion_at < cfg.door_open_dwell_time := by
  rcases s with ⟨c, ts, lm⟩
  have h0 := elapsed_self now
  cases c <;> by_cases hm : motionDetected cfg snap <;>
    by_cases ho : snap.obstacle_present <;>
      simp_all [evalState, evaluate, updateMotion, applyOverride, stepMachine] <;>
        split_ifs at * <;> simp_all <;> omega

/-- A controller state none of whose transition guards is armed is a fixed
point of the cycle. -/
theorem fixpoint_of (cfg : Config) (snap : SensorSnapshot) (now : Nat)
    (s : ControllerState)
    (hA : motionDetected cfg snap = true → s.last_motion_at = now)
    (hB : snap.obstacle_present = true →
      s.current_state = DoorState.Opening ∨ s.current_state = DoorState.Open)
    (hE : s.current_state = DoorState.Closed → motionDetected cfg snap = false)
    (hC : s.current_state = DoorState.Opening →
      elapsed now s.state_entered_at < cfg.door_travel_time)
    (hF : s.current_state = DoorState.Open →
      snap.obstacle_present = true ∨
      elapsed now s.last_motion_at < cfg.door_open_dwell_time)
    (hD : s.current_state = DoorState.Closing →
      elapsed now s.state_entered_at < cfg.door_travel_time) :
    evalState cfg snap now s = s := by
  rcases s with ⟨c, ts, lm⟩
  cases c <;> by_cases hm : motionDetected cfg snap <;>
    by_cases ho : snap.obstacle_present <;>
      simp_all [evalState, evaluate, updateMotion, applyOverride, stepMachine] <;>
        split_ifs <;> simp_all <;> omega

/-- Two cycles at the same clock reading settle every guard, so the state
reached after two cycles is a fixed point of further cycles. -/
theorem evalState_fix (cfg : Config) (snap : SensorSnapshot) (now : Nat)
    (htravel : 0 < cfg.door_travel_time) (s : ControllerState) :
    evalState cfg snap now (evalState cfg snap now (evalState cfg snap now s)) =
    evalState cfg snap now (evalState cfg snap now s) := by
  exact fixpoint_of cfg snap now (evalState cfg snap now (evalState cfg snap now s))
    (fun hm => evalState_last_settled cfg snap now _ hm)
    (fun ho => obstacle_cycle_open cfg snap now _ ho)
    (fun hcl => closed_after_step cfg snap now _
      (fun hclo => closing_inv cfg snap now htravel s hclo) hcl)
    (fun hop => opening_inv cfg snap now htravel _ hop)
    (fun hop => open_after_step cfg snap now _
      (fun hopg => opening_inv cfg snap now htravel s hopg) hop)
    (fun hclo => closing_inv cfg snap now htravel _ hclo)

/-- C6 as stated is false on the code: starting in `Opening` entered at 0,
with no sensor activity and the clock constant at 15000, the first call ends
in `Open` and the second call, with identical inputs, moves on to `Closing`
and drops the motor command — repeated evaluation at a constant clock does
not leave `current_state` unchanged, nor the actuator commands identical. -/
theorem spec_C6_counterexample :
    (evalState codeConfig ⟨false, 0⟩ 15000 ⟨DoorState.Opening, 0, 0⟩).current_state ≠
      (evalState codeConfig ⟨false, 0⟩ 15000
        (evalState codeConfig ⟨false, 0⟩ 15000 ⟨DoorState.Opening, 0, 0⟩)).current_state ∧
    (evaluate codeConfig ⟨DoorState.Opening, 0, 0⟩ ⟨false, 0⟩ 15000).2 ≠
      (evaluate codeConfig (evalState codeConfig ⟨false, 0⟩ 15000 ⟨DoorState.Opening, 0, 0⟩)
        ⟨false, 0⟩ 15000).2 := by decide

/-- C6 (amended): repeated evaluation with unchanged inputs and constant
`now` can advance the state for up to two calls (pending transitions fire one
per cycle); provided the configured travel time is positive, the state
reached after two calls is a fixed point — every further call leaves the
controller state unchanged and produces identical actuator commands. -/
theorem spec_C6_stabilizes (cfg : Config) (s : ControllerState)
    (snap : SensorSnapshot) (now : Nat) (htravel : 0 < cfg.door_travel_time) :
    ∀ k : Nat,
      (evalState cfg snap now)^[k]
          (evalState cfg snap now (evalState cfg snap now s)) =
        evalState cfg snap now (evalState cfg snap now s) ∧
      evaluate cfg ((evalState cfg snap now)^[k]
          (evalState cfg snap now (evalState cfg snap now s))) snap now =
        evaluate cfg (evalState cfg snap now (evalState cfg snap now s)) snap now := by
  intro k
  induction k with
  | zero => exact ⟨rfl, rfl⟩
  | succ n ih =>
      constructor
      · rw [Function.iterate_succ_apply', ih.1]
        exact evalState_fix cfg snap now htravel s
      · rw [Function.iterate_succ_apply', ih.1,
          evalState_fix cfg snap now htravel s]

theorem spec_C6_stabilizes_witness :
    (evalState codeConfig ⟨false, 0⟩ 15000)^[5]
        (evalState codeConfig ⟨false, 0⟩ 15000
          (evalState codeConfig ⟨false, 0⟩ 15000 ⟨DoorState.Opening, 0, 0⟩)) =
      evalState codeConfig ⟨false, 0⟩ 15000
        (evalState codeConfig ⟨false, 0⟩ 15000 ⟨DoorState.Opening, 0, 0⟩) ∧
    evaluate codeConfig ((evalState codeConfig ⟨false, 0⟩ 15000)^[5]
        (evalState codeConfig ⟨false, 0⟩ 15000
          (evalState codeConfig ⟨false, 0⟩ 15000 ⟨DoorState.Opening, 0, 0⟩)))
        ⟨false, 0⟩ 15000 =
      evaluate codeConfig (evalState codeConfig ⟨false, 0⟩ 15000
          (evalState codeConfig ⟨false, 0⟩ 15000 ⟨DoorState.Opening, 0, 0⟩))
        ⟨false, 0⟩ 15000 :=
  spec_C6_stabilizes codeConfig ⟨DoorState.Opening, 0, 0⟩ ⟨false, 0⟩ 15000 (by decide) 5
